import Mathlib

/-!
Verification of the real-time activity pipeline of the ai-email-agent
frontend: the event normalizers and batching queue of
`src/frontend/src/services/websocket.ts` (class `WebSocketService`) and the
activity registry of the activity store (`useActivityStore`: `addActivity`,
`updateActivity`).  Every definition below is a shallow embedding of the
corresponding TypeScript, translated value-for-value; JavaScript quirks that
the source relies on (falsy `||` defaulting, `undefined` interpolation in
template literals, spread merging of partial records) are modelled
explicitly.
-/

set_option autoImplicit false

namespace EmailAgent

/-! ## JavaScript value helpers

The wire payloads are plain JS objects whose fields may be absent
(`undefined`).  An absent field is `Option.none`.  The helpers below model
the JS idioms the handlers use on such fields. -/

/-- Template-literal interpolation of a possibly-`undefined` string field:
`` `${x}` `` renders `undefined` as the literal text "undefined". -/
def jsStr : Option String → String
  | some s => s
  | none => "undefined"

/-- JS `x || d` on a string field: `undefined` and the empty string are
falsy, so both fall back to the default. -/
def jsOr : Option String → String → String
  | some s, d => if s = "" then d else s
  | none, d => d

/-- JS `x || d` on a numeric field: `undefined` and `0` are falsy. -/
def jsOrNat : Option Nat → Nat → Nat
  | some n, d => if n = 0 then d else n
  | none, d => d

/-- Abstract rendering of `new Date(ms).toISOString()`.  The claims only
compare timestamps for equality, so the clock value is rendered by its
decimal digits; distinct instants render distinctly. -/
def isoString (now : Nat) : String := Nat.repr now

/-! ## Data model (activity store)

A JS activity object distinguishes, for each optional interface field,
whether the key is absent, present holding `undefined`, or present with a
value.  Two representations appear below: `ActivityObj` is the full object
as a handler builds it, key-presence included; `ActivityItem` is a stored
registry entry in its property-read view, where an optional field holds
the value property reads return (`none` when reads give `undefined`, i.e.
the key is absent or present holding `undefined`).  The read view is
faithful for stored entries because every later use of a stored entry
reads its fields or spreads it on the left of
`{ ...existing, ...updates }` — both see only read values.  The `stage`
field is a `String` because the handlers store arbitrary wire strings
(`data.step`) in it; `type` and `status` are the interface's closed enums.
JS `number` fields carry only the integral values the pipeline passes
through, so they are modelled as `Nat`; no arithmetic is performed on them
in the embedded operations. -/

inductive ActivityType where
  | email_processing
  | autonomous_task
  | autonomous_action
  | ml_training
  | report_generation
  | security_scan
  deriving DecidableEq, Repr

inductive ActivityStatus where
  | started
  | in_progress
  | completed
  | error
  | failed
  deriving DecidableEq, Repr

inductive RiskLevel where
  | high
  | medium
  | low
  deriving DecidableEq, Repr

structure ThreatDetails where
  email_id : String
  subject : String
  sender : String
  flags : List String
  llm_analysis : Option String
  risk_level : RiskLevel
  deriving DecidableEq, Repr

structure ChartData where
  label : String
  value : Nat
  color : String
  deriving DecidableEq, Repr

structure ChartSeries where
  title : String
  data : List ChartData
  deriving DecidableEq, Repr

structure Charts where
  pie_chart : Option ChartSeries
  bar_chart : Option ChartSeries
  deriving DecidableEq, Repr

structure ActivityItem where
  id : String
  type : ActivityType
  stage : String
  status : ActivityStatus
  title : String
  description : Option String
  progress : Option Nat
  confidence : Option Nat
  email_id : Option String
  charts : Option Charts
  scan_details : Option (List ThreatDetails)
  created_at : String
  updated_at : String
  completed_at : Option String
  deriving DecidableEq, Repr

/-- `Partial<ActivityItem>`: every key may be absent.  For a required
interface field, `none` means the key is absent.  For an optional interface
field the outer `Option` says whether the key is present, the inner one is
the field's own optionality (`some none` = key present holding
`undefined`). -/
structure ActivityUpdate where
  id : Option String
  type : Option ActivityType
  stage : Option String
  status : Option ActivityStatus
  title : Option String
  description : Option (Option String)
  progress : Option (Option Nat)
  confidence : Option (Option Nat)
  email_id : Option (Option String)
  charts : Option (Option Charts)
  scan_details : Option (Option (List ThreatDetails))
  created_at : Option String
  updated_at : Option String
  completed_at : Option (Option String)
  deriving DecidableEq, Repr

/-- One key's contribution to the store's `hasChanges` scan
(`Object.keys(updates).some(key => updates[key] !== existing[key])`): an
absent key contributes nothing; a present key contributes whenever its
value differs.  (`!==` on JS objects is reference inequality, which is
implied by value inequality; when the values are equal the merge below is
value-identical to the existing entry either way, so comparing values is
observationally faithful.) -/
def chg {α : Type} [DecidableEq α] (o : Option α) (x : α) : Bool :=
  match o with
  | none => false
  | some v => decide (v ≠ x)

/-- The `hasChanges` scan of `updateActivity` in the activity store. -/
def hasChanges (u : ActivityUpdate) (a : ActivityItem) : Bool :=
  chg u.id a.id || chg u.type a.type || chg u.stage a.stage ||
  chg u.status a.status || chg u.title a.title ||
  chg u.description a.description || chg u.progress a.progress ||
  chg u.confidence a.confidence || chg u.email_id a.email_id ||
  chg u.charts a.charts || chg u.scan_details a.scan_details ||
  chg u.created_at a.created_at || chg u.updated_at a.updated_at ||
  chg u.completed_at a.completed_at

/-- JS spread `{ ...existing, ...updates }`: a present key overrides, an
absent key keeps the existing value. -/
def mergeUpd (a : ActivityItem) (u : ActivityUpdate) : ActivityItem where
  id := u.id.getD a.id
  type := u.type.getD a.type
  stage := u.stage.getD a.stage
  status := u.status.getD a.status
  title := u.title.getD a.title
  description := u.description.getD a.description
  progress := u.progress.getD a.progress
  confidence := u.confidence.getD a.confidence
  email_id := u.email_id.getD a.email_id
  charts := u.charts.getD a.charts
  scan_details := u.scan_details.getD a.scan_details
  created_at := u.created_at.getD a.created_at
  updated_at := u.updated_at.getD a.updated_at
  completed_at := u.completed_at.getD a.completed_at

/-- A full activity object as a handler's object literal builds it:
required interface fields are always present with defined values; an
optional field records whether its key is present (`some jv`, where `jv`
is the possibly-`undefined` value property reads return) or absent
(`none`).  E.g. the `llm_analysis_complete` literal writes
`confidence: data.confidence`, so its `confidence` key is present even
when the payload lacks the field (`some none`), while the ml-training
literals omit the `confidence` key entirely (`none`). -/
structure ActivityObj where
  id : String
  type : ActivityType
  stage : String
  status : ActivityStatus
  title : String
  description : Option (Option String)
  progress : Option (Option Nat)
  confidence : Option (Option Nat)
  email_id : Option (Option String)
  charts : Option (Option Charts)
  scan_details : Option (Option (List ThreatDetails))
  created_at : String
  updated_at : String
  completed_at : Option (Option String)
  deriving DecidableEq, Repr

/-- The update a full activity object denotes when spread or passed as
`updates`: required keys are present with their values, optional keys keep
their key-presence exactly — a key present holding `undefined` stays a
present key whose read value is `undefined`, so spreading it clears the
field. -/
def objUpdate (o : ActivityObj) : ActivityUpdate where
  id := some o.id
  type := some o.type
  stage := some o.stage
  status := some o.status
  title := some o.title
  description := o.description
  progress := o.progress
  confidence := o.confidence
  email_id := o.email_id
  charts := o.charts
  scan_details := o.scan_details
  created_at := some o.created_at
  updated_at := some o.updated_at
  completed_at := o.completed_at

/-- The stored read view of a freshly inserted object: each optional field
collapses to the value its property reads return (`Option.join`). -/
def storeItem (o : ActivityObj) : ActivityItem where
  id := o.id
  type := o.type
  stage := o.stage
  status := o.status
  title := o.title
  description := o.description.join
  progress := o.progress.join
  confidence := o.confidence.join
  email_id := o.email_id.join
  charts := o.charts.join
  scan_details := o.scan_details.join
  created_at := o.created_at
  updated_at := o.updated_at
  completed_at := o.completed_at.join

@[simp] theorem storeItem_id (o : ActivityObj) : (storeItem o).id = o.id := rfl

/-- JS spread `{ ...existing, ...activity }` of a full activity object
over a stored entry, in the stored read view. -/
def mergeObj (a : ActivityItem) (o : ActivityObj) : ActivityItem :=
  mergeUpd a (objUpdate o)

@[simp] theorem mergeObj_id (a : ActivityItem) (o : ActivityObj) :
    (mergeObj a o).id = o.id := rfl

/-! ## Activity registry (`useActivityStore`)

The registry is the store's `activities` array, newest first.  The index
computed by `findIndex` is the first match, so index assignment is
first-match replacement. -/

/-- Replace the first entry whose id matches `o.id` by the spread-merge of
`o` over it (`updatedActivities[existingIndex] = { ...existing, ...activity }`). -/
def mergeFirst : List ActivityItem → ActivityObj → List ActivityItem
  | [], _ => []
  | b :: rest, o =>
    if b.id == o.id then mergeObj b o :: rest else b :: mergeFirst rest o

/-- `addActivity` of the activity store: merge onto an existing entry with
the same id, else prepend and truncate to the 50 most recent
(`[activity, ...state.activities].slice(0, 50)`). -/
def addActivity (acts : List ActivityItem) (o : ActivityObj) : List ActivityItem :=
  if acts.any (fun b => b.id == o.id) then
    mergeFirst acts o
  else
    (storeItem o :: acts).take 50

/-- Replace the first entry whose id matches `i` by `a` (index assignment
at the `findIndex` position). -/
def setFirst : List ActivityItem → String → ActivityItem → List ActivityItem
  | [], _, _ => []
  | b :: rest, i, a =>
    if b.id == i then a :: rest else b :: setFirst rest i a

/-- `updateActivity` of the activity store: no change when the id is
absent; otherwise spread-merge the updates over the existing entry in
place, suppressed when no present key changes its value. -/
def updateActivity (acts : List ActivityItem) (id : String)
    (u : ActivityUpdate) : List ActivityItem :=
  match acts.find? (fun b => b.id == id) with
  | none => acts
  | some existing =>
    if hasChanges u existing then
      setFirst acts id (mergeUpd existing u)
    else
      acts

/-- The per-item branch of `processBatchedUpdates`: update when an entry
with the id exists, else add. -/
def upsertActivity (acts : List ActivityItem) (o : ActivityObj) : List ActivityItem :=
  if acts.any (fun b => b.id == o.id) then
    updateActivity acts o.id (objUpdate o)
  else
    addActivity acts o

/-! ## Batching queue (`WebSocketService`) -/

/-- Replace the first queue entry with a matching id by the new activity
(`this.activityUpdateQueue[existingIndex] = activity`). -/
def qreplace : List ActivityObj → ActivityObj → List ActivityObj
  | [], _ => []
  | b :: rest, a =>
    if b.id == a.id then a :: rest else b :: qreplace rest a

/-- `queueActivityUpdate`: same-id entries are replaced in place, new ids
are appended; (the flush timer is restarted, which the service state
records as a pending-timer flag). -/
def queueActivityUpdate (q : List ActivityObj) (a : ActivityObj) : List ActivityObj :=
  if q.any (fun b => b.id == a.id) then qreplace q a else q ++ [a]

/-! ## Connection manager and service state

`SvcState` bundles the mutable state of the `WebSocketService` singleton
(socket handle, init guard, reconnect counter, batching queue, flush-timer
handle) with the activity store state it writes to (`activities`,
`isConnected`).  `constructions` and `openAttempts` are observation
counters instrumenting how many times a transport was constructed and how
many transport opens were initiated; no definition branches on them. -/

inductive ConnState where
  | disconnected
  | connecting
  | connected
  deriving DecidableEq, Repr

structure SvcState where
  socket : Option ConnState
  isInit : Bool
  authToken : Option String
  reconnectAttempts : Nat
  queue : List ActivityObj
  batchTimeout : Bool
  registry : List ActivityItem
  systemConnected : Bool
  constructions : Nat
  openAttempts : Nat
  deriving DecidableEq, Repr

/-- The state of the service before any call: no socket, init guard false. -/
def initState : SvcState where
  socket := none
  isInit := false
  authToken := none
  reconnectAttempts := 0
  queue := []
  batchTimeout := false
  registry := []
  systemConnected := false
  constructions := 0
  openAttempts := 0

/-- The transport's own `connect` entry point (socket.io-client
`Socket.connect` / `Manager.open`), modelled at the boundary per the
library's contract: an open is initiated only from the disconnected state;
calling it on a socket that is already connecting or connected is a no-op.
Returns the new transport state and whether an open attempt was made. -/
def transportConnect : ConnState → ConnState × Bool
  | .disconnected => (.connecting, true)
  | .connecting => (.connecting, false)
  | .connected => (.connected, false)

/-- `initializeSocket` (the name in the source ends differently here only
because the embedding avoids clashing identifiers): guarded by `isInit`, it
constructs the one transport object (which starts disconnected, since
`autoConnect` is off) and sets the guard. -/
def initSocket (st : SvcState) : SvcState :=
  if st.isInit then
    st
  else
    { st with
        socket := some .disconnected
        isInit := true
        constructions := st.constructions + 1 }

/-- `connect()`: return early with no state change when no auth token is
available; construct the socket once if not yet initialized; return if the
socket reports connected; otherwise attach the current token to the
handshake payload and call the transport's connect. -/
def connect (token : Option String) (st : SvcState) : SvcState :=
  if token.isNone then
    st
  else
    let st1 := if st.isInit then st else initSocket st
    match st1.socket with
    | none => st1
    | some c =>
      if c = .connected then
        st1
      else
        let r := transportConnect c
        { st1 with
            authToken := token
            socket := some r.1
            openAttempts := st1.openAttempts + (if r.2 then 1 else 0) }

/-- `cleanup()`: clear the pending flush timer and discard the queued
updates. -/
def cleanup (st : SvcState) : SvcState :=
  { st with batchTimeout := false, queue := [] }

/-- `disconnect()`: close the transport when it is connected, mark the
connection flag false, reset the reconnect counter, and run `cleanup`. -/
def disconnect (st : SvcState) : SvcState :=
  let st1 :=
    match st.socket with
    | some .connected => { st with socket := some .disconnected }
    | _ => st
  cleanup { st1 with systemConnected := false, reconnectAttempts := 0 }

/-- One step of the flush loop in `processBatchedUpdates`.  The existence
check reads `activityStore.activities` from the state snapshot taken
before the loop (`pre`), while the mutation applies to the store's current
list (`acc`). -/
def flushItem (pre : List ActivityItem) (acc : List ActivityItem)
    (o : ActivityObj) : List ActivityItem :=
  if pre.any (fun b => b.id == o.id) then
    updateActivity acc o.id (objUpdate o)
  else
    addActivity acc o

/-- `processBatchedUpdates`: early return on an empty queue; otherwise
apply one upsert per buffered item in buffer order, then clear the queue
and the timer handle. -/
def processBatchedUpdates (st : SvcState) : SvcState :=
  if st.queue.isEmpty then
    st
  else
    { st with
        registry := st.queue.foldl (flushItem st.registry) st.registry
        queue := []
        batchTimeout := false }

/-- The order in which `processBatchedUpdates` applies registry upserts:
its `forEach` walks the buffer front to back. -/
def flushTrace (st : SvcState) : List String :=
  st.queue.map (fun a => a.id)

/-! ## Event normalizers

One definition per wire-event handler the claims exercise, split into the
pure payload-to-`ActivityObj` normalizer (taking the wall clock `now` in
milliseconds for `Date.now()` / `new Date().toISOString()`) and, where
needed, the handler composed with the queue. -/

structure MlTrainingStartedData where
  timestamp : Option String
  deriving DecidableEq, Repr

/-- The `ml_training_started` handler's activity:
id `` `ml_training_${Date.now()}` ``. -/
def mlTrainingStartedActivity (d : MlTrainingStartedData) (now : Nat) : ActivityObj where
  id := "ml_training_" ++ Nat.repr now
  type := .ml_training
  stage := "initialize"
  status := .in_progress
  title := "🧠 AI Model Retraining"
  description := some (some "Starting model retraining with your feedback...")
  progress := some (some 0)
  confidence := none
  email_id := none
  charts := none
  scan_details := none
  created_at := jsOr d.timestamp (isoString now)
  updated_at := jsOr d.timestamp (isoString now)
  completed_at := none

structure MlTrainingProgressData where
  step : Option String
  message : Option String
  progress : Option Nat
  timestamp : Option String
  deriving DecidableEq, Repr

/-- The `ml_training_progress` handler's activity:
id `` `ml_training_${data.step || 'progress'}` ``. -/
def mlTrainingProgressActivity (d : MlTrainingProgressData) (now : Nat) : ActivityObj where
  id := "ml_training_" ++ jsOr d.step "progress"
  type := .ml_training
  stage := jsOr d.step "training"
  status := .in_progress
  title := "🧠 AI Model Retraining"
  description := some (some (jsOr d.message "Training in progress..."))
  progress := some (some (jsOrNat d.progress 0))
  confidence := none
  email_id := none
  charts := none
  scan_details := none
  created_at := jsOr d.timestamp (isoString now)
  updated_at := jsOr d.timestamp (isoString now)
  completed_at := none

structure EmailProcessingStartedData where
  email_id : Option String
  subject : Option String
  sender : Option String
  timestamp : Option String
  deriving DecidableEq, Repr

/-- The `email_processing_started` handler's activity:
id `` `email_${data.email_id}_start` `` — a missing `email_id` interpolates
as the text "undefined". -/
def emailProcessingStartedActivity (d : EmailProcessingStartedData) (now : Nat) : ActivityObj where
  id := "email_" ++ jsStr d.email_id ++ "_start"
  type := .email_processing
  stage := "fetch"
  status := .started
  title := "Processing: " ++ jsOr d.subject "New Email"
  description := some (some ("From: " ++ jsOr d.sender "Unknown"))
  progress := none
  confidence := none
  email_id := some d.email_id
  charts := none
  scan_details := none
  created_at := jsOr d.timestamp (isoString now)
  updated_at := jsOr d.timestamp (isoString now)
  completed_at := none

structure LlmAnalysisCompleteData where
  email_id : Option String
  purpose : Option String
  priority : Option String
  urgency : Option String
  confidence : Option Nat
  timestamp : Option String
  deriving DecidableEq, Repr

/-- The `llm_analysis_complete` handler's activity:
id `` `email_${data.email_id}_llm` ``. -/
def llmAnalysisCompleteActivity (d : LlmAnalysisCompleteData) (now : Nat) : ActivityObj where
  id := "email_" ++ jsStr d.email_id ++ "_llm"
  type := .email_processing
  stage := "analyze"
  status := .completed
  title := "LLM Analysis Complete"
  description := some (some ("Purpose: " ++ jsStr d.purpose ++ ", Priority: " ++
    jsStr d.priority ++ ", Urgency: " ++ jsStr d.urgency))
  progress := none
  confidence := some d.confidence
  email_id := some d.email_id
  charts := none
  scan_details := none
  created_at := jsOr d.timestamp (isoString now)
  updated_at := jsOr d.timestamp (isoString now)
  completed_at := none

structure SuggestionGeneratedData where
  email_id : Option String
  suggestion : Option String
  timestamp : Option String
  deriving DecidableEq, Repr

/-- The `suggestion_generated` handler's activity:
id `` `suggestion_${data.email_id}_${Date.now()}` `` — the wall clock is
part of the identity. -/
def suggestionGeneratedActivity (d : SuggestionGeneratedData) (now : Nat) : ActivityObj where
  id := "suggestion_" ++ jsStr d.email_id ++ "_" ++ Nat.repr now
  type := .email_processing
  stage := "suggest"
  status := .completed
  title := "Suggestion Generated"
  description := some (some (jsOr d.suggestion "New suggestion available"))
  progress := none
  confidence := none
  email_id := some d.email_id
  charts := none
  scan_details := none
  created_at := jsOr d.timestamp (isoString now)
  updated_at := jsOr d.timestamp (isoString now)
  completed_at := none

/-- The `suggestion_generated` listener callback's effect on the batching
queue: normalize, then `queueActivityUpdate`. -/
def handleSuggestionGenerated (d : SuggestionGeneratedData) (now : Nat)
    (q : List ActivityObj) : List ActivityObj :=
  queueActivityUpdate q (suggestionGeneratedActivity d now)

/-- The `email_processing_started` listener callback's effect on the
batching queue. -/
def handleEmailProcessingStarted (d : EmailProcessingStartedData) (now : Nat)
    (q : List ActivityObj) : List ActivityObj :=
  queueActivityUpdate q (emailProcessingStartedActivity d now)

/-- Specification-side definition, following the spec's words for claim
C4: the order of distinct ids within a flush window is the order in which
each id was first seen. -/
def specFirstSeenOrder (ids : List String) : List String :=
  ids.foldl (fun acc i => if i ∈ acc then acc else acc ++ [i]) []

/-- A fixed stored entry used to build concrete registries. -/
def defaultItem : ActivityItem where
  id := ""
  type := .email_processing
  stage := ""
  status := .started
  title := ""
  description := none
  progress := none
  confidence := none
  email_id := none
  charts := none
  scan_details := none
  created_at := ""
  updated_at := ""
  completed_at := none

/-- A fixed activity object, used as the default argument of
`List.getLastD` in statements about the last buffered event and as the
base of concrete objects. -/
def defaultObj : ActivityObj where
  id := ""
  type := .email_processing
  stage := ""
  status := .started
  title := ""
  description := none
  progress := none
  confidence := none
  email_id := none
  charts := none
  scan_details := none
  created_at := ""
  updated_at := ""
  completed_at := none

/-! ## Shared lemmas -/

theorem chg_false_getD {α : Type} [DecidableEq α] (o : Option α) (x : α)
    (h : chg o x = false) : o.getD x = x := by
  cases o with
  | none => rfl
  | some v =>
    simp only [chg, decide_eq_false_iff_not, not_not] at h
    simpa using h

theorem mergeUpd_of_not_hasChanges (a : ActivityItem) (u : ActivityUpdate)
    (h : hasChanges u a = false) : mergeUpd a u = a := by
  simp only [hasChanges, Bool.or_eq_false_iff] at h
  obtain ⟨⟨⟨⟨⟨⟨⟨⟨⟨⟨⟨⟨⟨h1, h2⟩, h3⟩, h4⟩, h5⟩, h6⟩, h7⟩, h8⟩, h9⟩, h10⟩,
    h11⟩, h12⟩, h13⟩, h14⟩ := h
  simp only [mergeUpd, chg_false_getD _ _ h1, chg_false_getD _ _ h2,
    chg_false_getD _ _ h3, chg_false_getD _ _ h4, chg_false_getD _ _ h5,
    chg_false_getD _ _ h6, chg_false_getD _ _ h7, chg_false_getD _ _ h8,
    chg_false_getD _ _ h9, chg_false_getD _ _ h10, chg_false_getD _ _ h11,
    chg_false_getD _ _ h12, chg_false_getD _ _ h13, chg_false_getD _ _ h14]

/-- On a singleton registry holding the right id, `updateActivity` with a
full object's update always yields the spread-merge, whether or not the
change-suppression branch fires. -/
theorem updateActivity_singleton (cur : ActivityItem) (o : ActivityObj)
    (h : cur.id = o.id) :
    updateActivity [cur] o.id (objUpdate o) = [mergeObj cur o] := by
  have hfind : [cur].find? (fun b => b.id == o.id) = some cur := by
    simp [List.find?, h]
  by_cases hc : hasChanges (objUpdate o) cur = true
  · simp [updateActivity, hfind, hc, setFirst, h, mergeObj]
  · have hc' : hasChanges (objUpdate o) cur = false := by
      simpa using hc
    simp [updateActivity, hfind, hc', mergeObj,
      mergeUpd_of_not_hasChanges cur (objUpdate o) hc']

/-- Replacing a same-id entry does not change the sequence of ids in the
queue. -/
theorem qreplace_map_id (q : List ActivityObj) (a : ActivityObj) :
    (qreplace q a).map (fun b => b.id) = q.map (fun b => b.id) := by
  induction q with
  | nil => rfl
  | cons b rest ih =>
    by_cases hb : b.id == a.id
    · have : b.id = a.id := by simpa using hb
      simp [qreplace, hb, this]
    · simp [qreplace, hb, ih]

theorem queueActivityUpdate_map_id (q : List ActivityObj) (a : ActivityObj) :
    (queueActivityUpdate q a).map (fun b => b.id) =
      if a.id ∈ q.map (fun b => b.id) then q.map (fun b => b.id)
      else q.map (fun b => b.id) ++ [a.id] := by
  by_cases hmem : a.id ∈ q.map (fun b => b.id)
  · have hany : q.any (fun b => b.id == a.id) = true := by
      simp only [List.any_eq_true]
      obtain ⟨b, hb, hid⟩ := List.mem_map.mp hmem
      exact ⟨b, hb, by simp [hid]⟩
    simp [queueActivityUpdate, hany, qreplace_map_id, hmem]
  · have hany : q.any (fun b => b.id == a.id) = false := by
      simp only [List.any_eq_false]
      intro b hb
      intro hbeq
      exact hmem (List.mem_map.mpr ⟨b, hb, by simpa using hbeq⟩)
    simp [queueActivityUpdate, hany, hmem]

/-- The ids of the batching buffer are the first-seen-order ids of the
events queued into it. -/
theorem foldl_queue_map_id (events : List ActivityObj) (q : List ActivityObj) :
    ((events.foldl queueActivityUpdate q).map (fun b => b.id)) =
      events.foldl
        (fun acc a => if a.id ∈ acc then acc else acc ++ [a.id])
        (q.map (fun b => b.id)) := by
  induction events generalizing q with
  | nil => rfl
  | cons e rest ih =>
    simp only [List.foldl_cons]
    rw [ih]
    congr 1
    rw [queueActivityUpdate_map_id]

/-- Queueing events that all share one id onto a buffer already holding
that id leaves exactly the last event in that slot. -/
theorem foldl_queue_same_id (events : List ActivityObj) (b : ActivityObj)
    (h : ∀ e ∈ events, e.id = b.id) :
    events.foldl queueActivityUpdate [b] = [events.getLastD b] := by
  induction events generalizing b with
  | nil => rfl
  | cons e rest ih =>
    have he : e.id = b.id := h e (by simp)
    have hany : [b].any (fun c => c.id == e.id) = true := by
      simp [he]
    have hstep : queueActivityUpdate [b] e = [e] := by
      simp [queueActivityUpdate, hany, qreplace, he]
    simp only [List.foldl_cons, hstep, List.getLastD_cons]
    exact ih e (fun x hx => by rw [h x (by simp [hx]), he])

/-- Queueing the same activity twice is the same as queueing it once. -/
theorem queueActivityUpdate_idem (q : List ActivityObj) (a : ActivityObj) :
    queueActivityUpdate (queueActivityUpdate q a) a = queueActivityUpdate q a := by
  have hrep : ∀ l : List ActivityObj, qreplace (qreplace l a) a = qreplace l a := by
    intro l
    induction l with
    | nil => rfl
    | cons b rest ih =>
      by_cases hb : b.id == a.id
      · simp [qreplace, hb]
      · simp [qreplace, hb, ih]
  by_cases hany : q.any (fun b => b.id == a.id) = true
  · have hany2 : (qreplace q a).any (fun b => b.id == a.id) = true := by
      simp only [List.any_eq_true] at hany ⊢
      obtain ⟨b, hb, hid⟩ := hany
      refine ⟨a, ?_, by simp⟩
      clear hrep
      induction q with
      | nil => simp at hb
      | cons c rest ih =>
        by_cases hc : c.id == a.id
        · simp [qreplace, hc]
        · rcases List.mem_cons.mp hb with hb' | hb'
          · subst hb'
            simp [hc] at hid
          · simp [qreplace, hc, ih hb']
    simp [queueActivityUpdate, hany, hany2, hrep]
  · have hany' : q.any (fun b => b.id == a.id) = false := by simpa using hany
    have hany2 : (q ++ [a]).any (fun b => b.id == a.id) = true := by
      simp
    have hnomatch : ∀ b ∈ q, (b.id == a.id) = false := by
      simpa [List.any_eq_false] using hany'
    have hrep2 : ∀ l : List ActivityObj, (∀ b ∈ l, (b.id == a.id) = false) →
        qreplace (l ++ [a]) a = l ++ [a] := by
      intro l
      induction l with
      | nil =>
        intro _
        simp [qreplace]
      | cons b rest ih =>
        intro hl
        have hb := hl b (by simp)
        simp [qreplace, hb, ih (fun x hx => hl x (by simp [hx]))]
    simp [queueActivityUpdate, hany', hany2, hrep2 q hnomatch]

/-- Inserting an id not yet in the registry takes the prepend-and-truncate
path. -/
theorem addActivity_fresh (acts : List ActivityItem) (o : ActivityObj)
    (h : ∀ b ∈ acts, b.id ≠ o.id) :
    addActivity acts o = (storeItem o :: acts).take 50 := by
  have hany : acts.any (fun b => b.id == o.id) = false := by
    simp only [List.any_eq_false]
    intro b hb
    simpa using h b hb
  simp [addActivity, hany]

theorem mergeFirst_length (acts : List ActivityItem) (o : ActivityObj) :
    (mergeFirst acts o).length = acts.length := by
  induction acts with
  | nil => rfl
  | cons b rest ih =>
    by_cases hb : b.id == o.id
    · simp [mergeFirst, hb]
    · simp [mergeFirst, hb, ih]

/-- The registry never grows past 50 entries. -/
theorem addActivity_length_le (acts : List ActivityItem) (o : ActivityObj)
    (h : acts.length ≤ 50) : (addActivity acts o).length ≤ 50 := by
  by_cases hany : acts.any (fun b => b.id == o.id) = true
  · simpa [addActivity, hany, mergeFirst_length] using h
  · have hany' : acts.any (fun b => b.id == o.id) = false := by simpa using hany
    simp [addActivity, hany']

theorem take_append_take (l t : List ActivityItem) :
    (l ++ t.take 50).take 50 = (l ++ t).take 50 := by
  rw [List.take_append_eq_append_take, List.take_append_eq_append_take,
    List.take_take, min_eq_left (Nat.sub_le 50 l.length)]

/-- Sequential insertion of fresh-id activities: the registry is the
reversed insertion order, truncated to the 50 most recent. -/
theorem foldl_addActivity_fresh (items : List ActivityObj) :
    ∀ acts : List ActivityItem,
      ((items.map (fun b => b.id)) ++ acts.map (fun b => b.id)).Nodup →
      acts.length ≤ 50 →
      items.foldl addActivity acts =
        ((items.map storeItem).reverse ++ acts).take 50 := by
  induction items with
  | nil =>
    intro acts _ hlen
    simpa using (List.take_of_length_le hlen).symm
  | cons a rest ih =>
    intro acts hnd hlen
    simp only [List.map_cons, List.cons_append, List.nodup_cons] at hnd
    obtain ⟨hnotmem, hnd'⟩ := hnd
    have hfresh : ∀ b ∈ acts, b.id ≠ a.id := by
      intro b hb heq
      exact hnotmem (List.mem_append_right _ (List.mem_map.mpr ⟨b, hb, heq⟩))
    have hstep : addActivity acts a = (storeItem a :: acts).take 50 :=
      addActivity_fresh acts a hfresh
    have hnd2 : ((rest.map (fun b => b.id)) ++
        ((storeItem a :: acts).take 50).map (fun b => b.id)).Nodup := by
      have hperm : (a.id :: (rest.map (fun b => b.id) ++
          acts.map (fun b => b.id))).Nodup := List.nodup_cons.mpr ⟨hnotmem, hnd'⟩
      have hnd3 : ((rest.map (fun b => b.id)) ++
          (storeItem a :: acts).map (fun b => b.id)).Nodup := by
        refine (List.perm_middle.symm.nodup_iff).mp ?_
        simpa using hperm
      refine List.Nodup.sublist ?_ hnd3
      rw [List.map_take]
      exact (List.take_sublist 50 _).append_left _
    have hlen2 : ((storeItem a :: acts).take 50).length ≤ 50 := by
      simp [List.length_take]
    calc (a :: rest).foldl addActivity acts
        = rest.foldl addActivity ((storeItem a :: acts).take 50) := by
          simp [hstep]
      _ = ((rest.map storeItem).reverse ++ (storeItem a :: acts).take 50).take 50 :=
          ih _ hnd2 hlen2
      _ = ((rest.map storeItem).reverse ++ (storeItem a :: acts)).take 50 :=
          take_append_take _ _
      _ = (((a :: rest).map storeItem).reverse ++ acts).take 50 := by
          simp

/-- Repeated same-id upserts onto a singleton registry fold to the
spread-overlay of the updates in arrival order. -/
theorem foldl_upsert_same_id (rest : List ActivityObj) :
    ∀ cur : ActivityItem, (∀ e ∈ rest, e.id = cur.id) →
      rest.foldl upsertActivity [cur] = [rest.foldl mergeObj cur] := by
  induction rest with
  | nil =>
    intro cur _
    rfl
  | cons e rest' ih =>
    intro cur h
    have he : e.id = cur.id := h e (by simp)
    have hany : [cur].any (fun b => b.id == e.id) = true := by simp [he]
    have hstep : upsertActivity [cur] e = [mergeObj cur e] := by
      simp only [upsertActivity, hany, if_pos]
      exact updateActivity_singleton cur e he.symm
    simp only [List.foldl_cons, hstep]
    exact ih (mergeObj cur e)
      (fun x hx => by rw [h x (by simp [hx]), mergeObj_id, he])

/-! ## Claims -/

/-- The `ml_training_started{ts:T0}` frame of the spec's example scenario,
received at wall clock 1000. -/
def c1Started : ActivityObj :=
  mlTrainingStartedActivity { timestamp := some "T0" } 1000

/-- The `ml_training_progress{step:"fit", progress:40, ts:T1}` frame. -/
def c1Fit40 : ActivityObj :=
  mlTrainingProgressActivity
    { step := some "fit", message := none, progress := some 40,
      timestamp := some "T1" } 1001

/-- The `ml_training_progress{step:"fit", progress:90, ts:T2}` frame. -/
def c1Fit90 : ActivityObj :=
  mlTrainingProgressActivity
    { step := some "fit", message := none, progress := some 90,
      timestamp := some "T2" } 1002

/-- The registry after the example scenario's three frames are queued in
one flush window and flushed. -/
def c1Final : List ActivityItem :=
  (processBatchedUpdates
    { initState with
        queue := [c1Started, c1Fit40, c1Fit90].foldl queueActivityUpdate [] }).registry

/-- C1 counterexample: after the spec's example sequence, the registry
holds two `ml_training` Activities, not one, and no entry has both
`progress = 90` and `created_at = "T0"` — the started frame's id embeds
the wall clock while the progress frames' id embeds the step, so the
frames of one run do not share a process-scoped id. -/
theorem c1_counterexample :
    c1Final.length = 2 ∧
    (c1Final.all fun a =>
      !(a.progress == some 90 && a.created_at == "T0")) = true := by
  constructor
  · rfl
  · rfl

/-- C1 amended: within one flush window the progress frames for one step
coalesce onto the step-scoped id `ml_training_fit`, but the started frame
keeps its own wall-clock id, so the registry holds exactly two
`ml_training` Activities for the run: the coalesced progress entry with
`progress = 90`, `created_at = T2`, `updated_at = T2`, and the started
entry with `progress = 0`, `created_at = T0`. -/
theorem c1_amended :
    c1Final =
      [{ id := "ml_training_fit", type := .ml_training, stage := "fit",
         status := .in_progress, title := "🧠 AI Model Retraining",
         description := some "Training in progress...", progress := some 90,
         confidence := none, email_id := none, charts := none,
         scan_details := none, created_at := "T2", updated_at := "T2",
         completed_at := none },
       { id := "ml_training_1000", type := .ml_training,
         stage := "initialize", status := .in_progress,
         title := "🧠 AI Model Retraining",
         description := some "Starting model retraining with your feedback...",
         progress := some 0, confidence := none, email_id := none,
         charts := none, scan_details := none, created_at := "T0",
         updated_at := "T0", completed_at := none }] := by
  rfl

/-- First upsert of the C2 counterexample: id "x", created at T0, with a
`confidence` value (an llm-style frame whose payload carries the field). -/
def c2A : ActivityObj :=
  { defaultObj with
      id := "x"
      title := "v1"
      confidence := some (some 9)
      created_at := "T0"
      updated_at := "T0" }

/-- Second upsert of the C2 counterexample: id "x", created at T1, whose
`confidence` key is present but holds `undefined` (an llm-style frame
whose payload lacks the field). -/
def c2B : ActivityObj :=
  { defaultObj with
      id := "x"
      title := "v2"
      confidence := some none
      created_at := "T1"
      updated_at := "T1" }

/-- C2 counterexample: two upserts with id "x" whose `created_at` fields
are "T0" and "T1" leave one entry whose `created_at` is "T1", not the
first upsert's "T0" — the spread merge overwrites `created_at` whenever a
later upsert carries one. -/
theorem c2_counterexample :
    ([c2A, c2B].foldl upsertActivity []).length = 1 ∧
    (([c2A, c2B].foldl upsertActivity []).all
      fun e => e.created_at == "T0") = false := by
  constructor
  · rfl
  · rfl

/-- C2 amended: for every Activity id and every sequence of upserts
carrying that id — each a full handler-built activity object whose
optional keys may be absent, present with a value, or present holding
`undefined` — the registry afterwards contains exactly one entry for that
id, whose stored fields equal the field-wise spread overlay of all the
updates applied in arrival order: a present key overrides (a key present
holding `undefined` clears the field) and an absent key keeps the
previous value; in particular `created_at` equals the last upsert's
`created_at`, not necessarily the first's. -/
theorem c2_amended (o : ActivityObj) (rest : List ActivityObj)
    (h : ∀ e ∈ rest, e.id = o.id) :
    (o :: rest).foldl upsertActivity [] = [rest.foldl mergeObj (storeItem o)] := by
  have hfirst : upsertActivity [] o = [storeItem o] := rfl
  simp only [List.foldl_cons, hfirst]
  exact foldl_upsert_same_id rest (storeItem o) fun e he => by
    simpa using h e he

/-- C2 witness: the amended overlay law evaluated on the two concrete
upserts of the counterexample; the second upsert's present-but-`undefined`
`confidence` key clears the stored confidence. -/
theorem c2_witness :
    (∀ e ∈ [c2B], e.id = c2A.id) ∧
    [c2A, c2B].foldl upsertActivity [] = [[c2B].foldl mergeObj (storeItem c2A)] ∧
    (([c2A, c2B].foldl upsertActivity []).all
      fun e => e.confidence == none) = true :=
  ⟨by decide, c2_amended c2A [c2B] (by decide), by decide⟩

/-- Five same-id events used as the C3 witness's flush window. -/
def c3Events : List ActivityObj :=
  [1, 2, 3, 4, 5].map fun i =>
    { defaultObj with
        id := "A"
        title := Nat.repr i
        created_at := Nat.repr i
        updated_at := Nat.repr i }

/-- C3: events sharing one id within a flush window leave exactly one
buffer entry — the last event — and the flush performs exactly one
registry upsert for that id, carrying the last event's fields. -/
theorem c3_batch_coalescing (events : List ActivityObj) (X : String)
    (r : List ActivityItem) (h1 : events ≠ [])
    (h2 : ∀ e ∈ events, e.id = X) :
    events.foldl queueActivityUpdate [] = [events.getLastD defaultObj] ∧
    (processBatchedUpdates
      { initState with
          queue := events.foldl queueActivityUpdate []
          registry := r }).registry =
      upsertActivity r (events.getLastD defaultObj) := by
  obtain ⟨a, rest, rfl⟩ : ∃ a rest, events = a :: rest := by
    cases events with
    | nil => exact absurd rfl h1
    | cons a rest => exact ⟨a, rest, rfl⟩
  have hq : (a :: rest).foldl queueActivityUpdate [] = [rest.getLastD a] := by
    have hfirst : queueActivityUpdate [] a = [a] := rfl
    simp only [List.foldl_cons, hfirst]
    exact foldl_queue_same_id rest a fun e he => by
      rw [h2 e (by simp [he]), h2 a (by simp)]
  have hlast : (a :: rest).getLastD defaultObj = rest.getLastD a :=
    List.getLastD_cons defaultObj a rest
  refine ⟨by rw [hq, hlast], ?_⟩
  rw [hq, hlast]
  rfl

/-- C3 witness: the coalescing law evaluated on five rapid same-id
events. -/
theorem c3_witness :
    (c3Events ≠ [] ∧ ∀ e ∈ c3Events, e.id = "A") ∧
    (c3Events.foldl queueActivityUpdate [] = [c3Events.getLastD defaultObj] ∧
    (processBatchedUpdates
      { initState with
          queue := c3Events.foldl queueActivityUpdate []
          registry := [] }).registry =
      upsertActivity [] (c3Events.getLastD defaultObj)) :=
  ⟨⟨by decide, by decide⟩, c3_batch_coalescing c3Events "A" [] (by decide) (by decide)⟩

/-- C4: the buffered ids — and therefore the order in which the flush
applies registry upserts — are the first-seen order of the ids arriving in
the window: same-id events collapse into the first occurrence's position,
distinct ids keep their arrival order end-to-end. -/
theorem c4_order_preservation (events : List ActivityObj)
    (r : List ActivityItem) :
    (events.foldl queueActivityUpdate []).map (fun b => b.id) =
      specFirstSeenOrder (events.map (fun b => b.id)) ∧
    flushTrace
      { initState with
          queue := events.foldl queueActivityUpdate []
          registry := r } =
      specFirstSeenOrder (events.map (fun b => b.id)) := by
  have h : (events.foldl queueActivityUpdate []).map (fun b => b.id) =
      specFirstSeenOrder (events.map (fun b => b.id)) := by
    rw [foldl_queue_map_id events []]
    simp [specFirstSeenOrder, List.foldl_map]
  exact ⟨h, h⟩

/-- The 60 distinct-id activities inserted in the C5 witness. -/
def c5Items : List ActivityObj :=
  (List.range 60).map fun i => { defaultObj with id := Nat.repr i }

/-- C5: inserting 60 distinct-id activities into an empty registry leaves
exactly the 50 most recently inserted, newest first (oldest evicted from
the tail), and an insertion never grows a registry of at most 50 entries
past 50. -/
theorem c5_capacity_bound (items : List ActivityObj)
    (hlen : items.length = 60) (hnd : (items.map (fun b => b.id)).Nodup) :
    items.foldl addActivity [] = (items.map storeItem).reverse.take 50 ∧
    (items.foldl addActivity []).length = 50 ∧
    (items.foldl addActivity []).map (fun b => b.id) =
      ((items.map (fun b => b.id)).reverse).take 50 ∧
    (∀ (acts : List ActivityItem) (o : ActivityObj),
      acts.length ≤ 50 → (addActivity acts o).length ≤ 50) := by
  have h : items.foldl addActivity [] = (items.map storeItem).reverse.take 50 := by
    have := foldl_addActivity_fresh items [] (by simpa using hnd)
      (by simp)
    simpa using this
  refine ⟨h, ?_, ?_, fun acts o ho => addActivity_length_le acts o ho⟩
  · rw [h]
    simp [List.length_take, hlen]
  · rw [h]
    have hcomp : (fun b => b.id) ∘ storeItem = fun (o : ActivityObj) => o.id := by
      funext b
      rfl
    simp only [List.map_take, ← List.map_reverse, List.map_map, hcomp]

/-- C5 witness: the capacity law evaluated on 60 concrete distinct-id
activities. -/
theorem c5_witness :
    (c5Items.length = 60 ∧ (c5Items.map (fun b => b.id)).Nodup) ∧
    (c5Items.foldl addActivity [] = (c5Items.map storeItem).reverse.take 50 ∧
    (c5Items.foldl addActivity []).length = 50 ∧
    (c5Items.foldl addActivity []).map (fun b => b.id) =
      ((c5Items.map (fun b => b.id)).reverse).take 50 ∧
    (∀ (acts : List ActivityItem) (o : ActivityObj),
      acts.length ≤ 50 → (addActivity acts o).length ≤ 50)) :=
  ⟨⟨by decide, by decide⟩, c5_capacity_bound c5Items (by decide) (by decide)⟩

/-- C6: from a fresh service, two consecutive `connect()` calls with a
valid credential construct the transport once and initiate one open
attempt; `connect()` without a credential changes nothing; `connect()` on
a connected socket changes nothing; and a construction happens exactly
when the init guard is down and a credential is present. -/
theorem c6_idempotent_connect :
    (connect (some "tok1") (connect (some "tok1") initState)).constructions = 1 ∧
    (connect (some "tok1") (connect (some "tok1") initState)).openAttempts = 1 ∧
    (∀ st : SvcState, connect none st = st) ∧
    (∀ st : SvcState,
      connect (some "tok1") { st with isInit := true, socket := some .connected } =
        { st with isInit := true, socket := some .connected }) ∧
    (∀ (st : SvcState) (tok : Option String),
      (connect tok st).constructions =
        st.constructions + (if st.isInit || tok.isNone then 0 else 1)) := by
  refine ⟨rfl, rfl, fun st => rfl, fun st => ?_, fun st tok => ?_⟩
  · simp [connect]
  · cases tok with
    | none => simp [connect]
    | some t =>
      by_cases hinit : st.isInit
      · rcases hsock : st.socket with _ | c
        · simp [connect, hinit, hsock]
        · by_cases hc : c = .connected
          · simp [connect, hinit, hsock, hc]
          · simp [connect, hinit, hsock, hc]
      · simp [connect, hinit, initSocket, transportConnect]

/-- C7: `disconnect()` leaves the registry untouched, discards the
batching buffer, clears the pending flush timer, and a subsequent flush is
a no-op — so queued-but-unflushed activities never reach the registry. -/
theorem c7_disconnect_discards (st : SvcState) :
    (disconnect st).registry = st.registry ∧
    (disconnect st).queue = [] ∧
    (disconnect st).batchTimeout = false ∧
    processBatchedUpdates (disconnect st) = disconnect st := by
  have hreg : (disconnect st).registry = st.registry := by
    rcases hsock : st.socket with _ | c
    · simp [disconnect, cleanup, hsock]
    · cases c <;> simp [disconnect, cleanup, hsock]
  have hq : (disconnect st).queue = [] := by
    rcases hsock : st.socket with _ | c
    · simp [disconnect, cleanup, hsock]
    · cases c <;> simp [disconnect, cleanup, hsock]
  have ht : (disconnect st).batchTimeout = false := by
    rcases hsock : st.socket with _ | c
    · simp [disconnect, cleanup, hsock]
    · cases c <;> simp [disconnect, cleanup, hsock]
  refine ⟨hreg, hq, ht, ?_⟩
  simp [processBatchedUpdates, hq]

/-- Payload of the retransmitted `suggestion_generated` frame in the C8
counterexample. -/
def c8Data : SuggestionGeneratedData :=
  { email_id := some "e1", suggestion := some "s", timestamp := some "T" }

/-- C8 counterexample: delivering the same `suggestion_generated` frame
twice (at wall clocks 1 and 2) buffers two distinct activities — the
handler bakes `Date.now()` into the id — so the callback is not idempotent
against retransmission. -/
theorem c8_counterexample :
    handleSuggestionGenerated c8Data 2 (handleSuggestionGenerated c8Data 1 []) ≠
      handleSuggestionGenerated c8Data 1 [] ∧
    (handleSuggestionGenerated c8Data 2
      (handleSuggestionGenerated c8Data 1 [])).length = 2 ∧
    (handleSuggestionGenerated c8Data 1 []).length = 1 := by
  refine ⟨?_, rfl, rfl⟩
  decide

/-- C8 amended: queueing the same normalized activity twice equals
queueing it once, so a handler is idempotent against retransmission
exactly when its activity is a function of the frame alone — e.g. the
`email_processing_started` handler on a frame carrying a timestamp; the
handlers that bake the wall clock into the id (`suggestion_generated`,
`autonomous_action_executed`, `ml_training_started/complete/error`, ...)
enqueue a fresh activity per delivery and are idempotent only when both
deliveries read the same clock. -/
theorem c8_amended :
    (∀ (q : List ActivityObj) (a : ActivityObj),
      queueActivityUpdate (queueActivityUpdate q a) a = queueActivityUpdate q a) ∧
    (∀ (q : List ActivityObj) (d : EmailProcessingStartedData)
      (t1 t2 : Nat) (ts : String), d.timestamp = some ts → ts ≠ "" →
      handleEmailProcessingStarted d t2 (handleEmailProcessingStarted d t1 q) =
        handleEmailProcessingStarted d t1 q) := by
  refine ⟨queueActivityUpdate_idem, ?_⟩
  intro q d t1 t2 ts hts hne
  have hact : emailProcessingStartedActivity d t2 =
      emailProcessingStartedActivity d t1 := by
    simp [emailProcessingStartedActivity, hts, jsOr, hne]
  simp [handleEmailProcessingStarted, hact, queueActivityUpdate_idem]

/-- C8 witness: re-delivering a timestamped `email_processing_started`
frame at a later wall clock leaves the buffer unchanged. -/
theorem c8_witness :
    handleEmailProcessingStarted
        { email_id := some "e1", subject := none, sender := none,
          timestamp := some "T" } 2
      (handleEmailProcessingStarted
        { email_id := some "e1", subject := none, sender := none,
          timestamp := some "T" } 1 []) =
    handleEmailProcessingStarted
      { email_id := some "e1", subject := none, sender := none,
        timestamp := some "T" } 1 [] :=
  c8_amended.2 []
    { email_id := some "e1", subject := none, sender := none,
      timestamp := some "T" } 1 2 "T" rfl (by decide)

/-- Payload of the malformed `email_processing_started` frame (no
`email_id`) in the C9 counterexample. -/
def c9Data : EmailProcessingStartedData :=
  { email_id := none, subject := some "S", sender := some "F",
    timestamp := some "T" }

/-- C9 counterexample: an `email_processing_started` frame with no
`email_id` is not dropped — the handler interpolates the missing field as
the text "undefined", queues the activity under id
`email_undefined_start`, and the flush inserts it into the registry. -/
theorem c9_counterexample :
    (emailProcessingStartedActivity c9Data 0).id = "email_undefined_start" ∧
    handleEmailProcessingStarted c9Data 0 [] ≠ [] ∧
    (processBatchedUpdates
      { initState with
          queue := handleEmailProcessingStarted c9Data 0 [] }).registry.length = 1 := by
  refine ⟨rfl, ?_, rfl⟩
  decide

/-- C9 amended: frames of a known kind missing their correlation field are
not dropped at normalization; the handler substitutes the literal text
"undefined" into the derived id (`email_undefined_start`,
`email_undefined_llm`) and the activity is queued — `queueActivityUpdate`
never discards its argument's id. -/
theorem c9_amended (dE : EmailProcessingStartedData)
    (dL : LlmAnalysisCompleteData) (now : Nat) (q : List ActivityObj)
    (a : ActivityObj) (hE : dE.email_id = none) (hL : dL.email_id = none) :
    (emailProcessingStartedActivity dE now).id = "email_undefined_start" ∧
    (llmAnalysisCompleteActivity dL now).id = "email_undefined_llm" ∧
    a.id ∈ (queueActivityUpdate q a).map (fun b => b.id) := by
  refine ⟨?_, ?_, ?_⟩
  · simp [emailProcessingStartedActivity, hE, jsStr]
  · simp [llmAnalysisCompleteActivity, hL, jsStr]
  · rw [queueActivityUpdate_map_id]
    by_cases hmem : a.id ∈ q.map (fun b => b.id)
    · simp [hmem]
    · simp [hmem]

/-- C9 witness: the amended statement evaluated on concrete malformed
frames. -/
theorem c9_witness :
    (emailProcessingStartedActivity c9Data 0).id = "email_undefined_start" ∧
    (llmAnalysisCompleteActivity
      { email_id := none, purpose := none, priority := none, urgency := none,
        confidence := none, timestamp := none } 0).id = "email_undefined_llm" ∧
    defaultObj.id ∈
      (queueActivityUpdate [] defaultObj).map (fun b => b.id) :=
  c9_amended c9Data
    { email_id := none, purpose := none, priority := none, urgency := none,
      confidence := none, timestamp := none } 0 [] defaultObj rfl rfl

/-- C10: `updateActivity` on an id absent from the registry returns the
registry unchanged — it never inserts and never fails; creation of a new
id happens only through `addActivity`. -/
theorem c10_update_absent_id (acts : List ActivityItem) (id : String)
    (u : ActivityUpdate) (h : ∀ b ∈ acts, b.id ≠ id) :
    updateActivity acts id u = acts := by
  have hfind : acts.find? (fun b => b.id == id) = none := by
    rw [List.find?_eq_none]
    intro b hb
    simpa using h b hb
  simp [updateActivity, hfind]

/-- C10 witness: updating an id that is not in a one-entry registry leaves
it unchanged. -/
theorem c10_witness :
    updateActivity [{ defaultItem with id := "a" }] "b" (objUpdate defaultObj) =
      [{ defaultItem with id := "a" }] :=
  c10_update_absent_id [{ defaultItem with id := "a" }] "b"
    (objUpdate defaultObj) (by decide)

end EmailAgent
